import Mathlib

/-!
Verification of the header analyzers in `httpobs/scanner/analyzer/headers.py`.

The Lean definitions below are a shallow embedding of that Python module:
Python strings are Lean `String`s manipulated through helpers that mirror the
semantics of the Python string methods used by the source (`split`, `strip`,
`lower`, slicing, substring / membership tests, `int(...)`), Python dicts
(insertion ordered, last write wins) are association lists, `None`-able values
are `Option`s, and code that may raise inside a `try` block is modelled with
`Except`, the handler receiving the partially mutated output record exactly as
a Python `except:` clause would observe it.
-/

namespace HttpObs

/-- Whitespace predicate matching the characters Python's `str.strip()` and
`str.split()` treat as whitespace in the ASCII range. -/
def isPySpace (c : Char) : Bool :=
  c = ' ' ∨ c = '\t' ∨ c = '\n' ∨ c = '\r' ∨ c = Char.ofNat 11 ∨ c = Char.ofNat 12

/-- Lower-case a character list (ASCII, as all header tokens here are ASCII). -/
def lowerChars (cs : List Char) : List Char := cs.map Char.toLower

/-- Python `s.lower()`. -/
def pyLower (s : String) : String := String.mk (lowerChars s.toList)

/-- Drop leading Python whitespace. -/
def stripLeft (cs : List Char) : List Char := cs.dropWhile isPySpace

/-- Python `s.strip()` on a character list. -/
def stripChars (cs : List Char) : List Char :=
  ((stripLeft cs).reverse.dropWhile isPySpace).reverse

/-- Python `s.strip()`. -/
def pyStrip (s : String) : String := String.mk (stripChars s.toList)

/-- Split a character list at every occurrence of `c`; mirrors Python
`s.split(sep)` for a one-character separator (empty parts are kept). -/
def splitOnCharAux (c : Char) : List Char → List (List Char)
  | [] => [[]]
  | x :: xs =>
    let r := splitOnCharAux c xs
    if x = c then [] :: r
    else
      match r with
      | [] => [[x]]
      | y :: ys => (x :: y) :: ys

/-- Python `s.split(sep)` for a one-character separator. -/
def pySplitChar (c : Char) (s : String) : List String :=
  (splitOnCharAux c s.toList).map String.mk

/-- Accumulating helper for whitespace splitting. -/
def wordsAux : List Char → List Char → List (List Char)
  | acc, [] => if acc = [] then [] else [acc.reverse]
  | acc, x :: xs =>
    if isPySpace x then
      if acc = [] then wordsAux [] xs else acc.reverse :: wordsAux [] xs
    else wordsAux (x :: acc) xs

/-- Python `s.split()` with no separator: split on whitespace runs, dropping
empty parts. -/
def pyWords (s : String) : List String := (wordsAux [] s.toList).map String.mk

/-- Python `s.split(maxsplit=1)` with no separator: at most one split at the
first whitespace run, leading whitespace skipped; `[]` for all-whitespace
input. -/
def pySplitMax1 (s : String) : List String :=
  let cs := stripLeft s.toList
  match cs with
  | [] => []
  | _ =>
    let w := cs.takeWhile (fun c => ¬ isPySpace c)
    let r := (cs.dropWhile (fun c => ¬ isPySpace c)).dropWhile isPySpace
    if r = [] then [String.mk w] else [String.mk w, String.mk r]

/-- Substring search on character lists. -/
def containsSubAux (needle : List Char) : List Char → Bool
  | [] => needle.isPrefixOf []
  | x :: xs => needle.isPrefixOf (x :: xs) ∨ containsSubAux needle xs

/-- Python `needle in haystack` on strings (substring containment). -/
def pyInStr (needle haystack : String) : Bool :=
  containsSubAux needle.toList haystack.toList

/-- Python slicing `s[0:n]`. -/
def pySlice (n : Nat) (s : String) : String := String.mk (s.toList.take n)

/-- Numeric value of a digit list. -/
def digitsToNat (cs : List Char) : Nat := cs.foldl (fun n c => n * 10 + (c.toNat - 48)) 0

/-- Python `int(s)`: optional surrounding whitespace, optional sign, at least
one decimal digit; anything else raises (here: `none`). -/
def pyInt (s : String) : Option Int :=
  let cs := stripChars s.toList
  match cs with
  | [] => none
  | c :: rest =>
    if c = '-' then
      if rest ≠ [] ∧ rest.all Char.isDigit then some (-(digitsToNat rest : Int)) else none
    else if c = '+' then
      if rest ≠ [] ∧ rest.all Char.isDigit then some (digitsToNat rest : Int) else none
    else
      if cs.all Char.isDigit then some (digitsToNat cs : Int) else none

/-- Python dict assignment `d[k] = v` on an insertion-ordered association
list: an existing key keeps its position and gets the new value, a new key is
appended. -/
def dictSet {α : Type} : List (String × α) → String → α → List (String × α)
  | [], k, v => [(k, v)]
  | p :: ps, k, v => if p.1 = k then (k, v) :: ps else p :: dictSet ps k v

/-- Python `d.get(k)`: the value, or `none` when the key is absent. -/
def dictGet {α : Type} : List (String × α) → String → Option α
  | [], _ => none
  | p :: ps, k => if p.1 = k then some p.2 else dictGet ps k

/-- Python `k in d` on a dict: key membership. -/
def dictHasKey {α : Type} (d : List (String × α)) (k : String) : Bool :=
  (dictGet d k).isSome

/-- Lookup in a case-insensitive header mapping, as provided by the requests
library's `CaseInsensitiveDict`. -/
def headersGet (hs : List (String × String)) (k : String) : Option String :=
  (hs.find? (fun p => pyLower p.1 = pyLower k)).map (fun p => p.2)

/-- Scheme and network location of a parsed URL. -/
structure UrlParts where
  scheme : String
  netloc : String
deriving DecidableEq

/-- Characters allowed after the first character of a URL scheme. -/
def isSchemeChar (c : Char) : Bool := c.isAlphanum ∨ c = '+' ∨ c = '-' ∨ c = '.'

/-- Python `urllib.parse.urlparse`, restricted to the `scheme` and `netloc`
components the analyzers read: the scheme is the lower-cased prefix before the
first `:` when it is a well-formed scheme, and the netloc is the part after
`//` up to the next `/`, `?` or `#`. -/
def pyUrlparse (url : String) : UrlParts :=
  let cs := url.toList
  let pre := cs.takeWhile (fun c => c ≠ ':')
  let sr : List Char × List Char :=
    if pre.length < cs.length ∧ pre ≠ [] ∧ (pre.headD 'a').isAlpha ∧ pre.all isSchemeChar
    then (lowerChars pre, cs.drop (pre.length + 1))
    else ([], cs)
  let netloc :=
    if ['/', '/'].isPrefixOf sr.2
    then (sr.2.drop 2).takeWhile (fun c => c ≠ '/' ∧ c ≠ '?' ∧ c ≠ '#')
    else []
  ⟨String.mk sr.1, String.mk netloc⟩

/-- Python `repr` of a string for printable ASCII content: single-quoted,
double-quoted when the content contains a single quote but no double quote,
with backslash and quote escapes. -/
def pyReprStr (s : String) : String :=
  let sqc : Char := Char.ofNat 39
  let q : Char := if s.toList.contains sqc ∧ ¬ s.toList.contains '"' then '"' else sqc
  String.mk (q :: (s.toList.foldr
    (fun c acc => if c = q ∨ c = '\\' then '\\' :: c :: acc else c :: acc) [q]))

/-- Truthiness of an optional string, as Python sees `None` or a string. -/
def optStrTruthy : Option String → Bool
  | some s => s ≠ ""
  | none => false

/-- Python `not v` for an optional boolean attribute (`not None` is `True`). -/
def pyNotOpt : Option Bool → Bool
  | some b => ¬ b
  | none => true

/-- Python `output['result'] in (x, y, ...)` where the result may still be
`None`. -/
def resultIn (r : Option String) (xs : List String) : Bool :=
  match r with
  | some s => xs.contains s
  | none => false

/-- Single-quote character as a string. -/
def sqStr : String := String.mk [Char.ofNat 39]

/-- CSP source keyword `'unsafe-inline'`, quotes included. -/
def inlineTok : String := sqStr ++ "unsafe-inline" ++ sqStr

/-- CSP source keyword `'unsafe-eval'`, quotes included. -/
def evalTok : String := sqStr ++ "unsafe-eval" ++ sqStr

/-- HTTP response as the analyzers consume it: final URL and a case-insensitive
header mapping. -/
structure Response where
  url : String
  headers : List (String × String)
deriving DecidableEq

/-- Response pair of a scan: `reqs['responses']['auto']` is always present,
`reqs['responses']['https']` is `None` when the site is unreachable over
HTTPS. -/
structure Responses where
  auto : Response
  https : Option Response

/-- Cookie record of the session jar. `httponly := none` models a cookie
object that does not natively expose an `httponly` attribute, in which case
the analyzer derives it from the raw attribute keys in `rest`
(`cookie._rest`). -/
structure Cookie where
  name : String
  domain : String
  path : String
  expires : Option Int
  maxAge : Option Int
  port : Option String
  secure : Bool
  httponly : Option Bool
  rest : List String
deriving DecidableEq

/-- Session object: the ordered cookie jar accumulated over the scan. -/
structure Session where
  cookies : List Cookie
deriving DecidableEq

/-- Request/response bundle handed to every analyzer. The field
`isHstsPreloaded` is modelled from the spec: it stands for the external
Preload Oracle `IsPreloaded(hostname) -> bool` (`is_hsts_preloaded` in
`httpobs.scanner.analyzer.utils`, which is outside the analyzed source). -/
structure Reqs where
  responses : Responses
  session : Session
  isHstsPreloaded : String → Bool

/-- Value of one CSP directive as the Python code stores it: a token list for
directives parsed from the header, or a plain string (the empty-string
default the code writes into `default-src`). -/
inductive CspVal where
  | str (s : String)
  | list (xs : List String)
deriving DecidableEq

/-- Python truthiness of a directive value. -/
def cspValTruthy : CspVal → Bool
  | .str s => s ≠ ""
  | .list xs => xs ≠ []

/-- Python `needle in v` for a directive value: substring test on a string,
exact membership on a token list. -/
def cspValHasMember (needle : String) : CspVal → Bool
  | .str s => pyInStr needle s
  | .list xs => xs.contains needle

/-- Python `str`/`repr` of a directive value. -/
def cspReprVal : CspVal → String
  | .str s => pyReprStr s
  | .list xs => "[" ++ String.intercalate ", " (xs.map pyReprStr) ++ "]"

/-- Python `str` of the CSP policy dict. -/
def cspReprDict (d : List (String × CspVal)) : String :=
  "\x7b" ++ String.intercalate ", " (d.map (fun p => pyReprStr p.1 ++ ": " ++ cspReprVal p.2)) ++ "\x7d"

/-- Verdict record returned by `content_security_policy`. -/
structure CspVerdict where
  data : Option (List (String × CspVal))
  expectation : String
  pass : Bool
  result : Option String
deriving DecidableEq

/-- Dict comprehension of lines 48-49: each piece is `directive.strip()`
split at the first whitespace run; `directive[0]` raises `IndexError` when the
piece is empty (an all-whitespace segment), which the caller's `except:`
turns into `csp-header-invalid`. -/
def buildCspDict : List (List String) → List (String × CspVal) → Except Unit (List (String × CspVal))
  | [], acc => .ok acc
  | piece :: rest, acc =>
    match piece with
    | [] => .error ()
    | d0 :: ds =>
      let val : CspVal := .list (match ds with | [] => [] | d1 :: _ => pyWords d1)
      buildCspDict rest (dictSet acc (pyLower d0) val)

/-- Lines 47-49: split the header on `;`, drop empty segments, strip each
segment and split it into directive name and token list. -/
def cspParse (h : String) : Except Unit (List (String × CspVal)) :=
  let segs := (pySplitChar ';' h).filter (fun d => d ≠ "")
  buildCspDict (segs.map (fun d => pySplitMax1 (pyStrip d))) []

/-- Lines 56-58: write `default-src` back into the dict (empty string when
absent), then give `script-src` and `style-src` their own value when present
and the `default-src` value otherwise. The `getD` defaults are unreachable:
the guarding key tests make the lookups succeed. -/
def cspReplicate (csp0 : List (String × CspVal)) : List (String × CspVal) :=
  let csp1 := dictSet csp0 "default-src" ((dictGet csp0 "default-src").getD (.str ""))
  let csp2 := dictSet csp1 "script-src"
    (if dictHasKey csp1 "script-src" then (dictGet csp1 "script-src").getD (.str "")
     else (dictGet csp1 "default-src").getD (.str ""))
  dictSet csp2 "style-src"
    (if dictHasKey csp2 "style-src" then (dictGet csp2 "style-src").getD (.str "")
     else (dictGet csp2 "default-src").getD (.str ""))

/-- Decision tree of lines 61-72. Note that lines 65 and 67 test `in` against
`output['data']`, which is the policy dict itself, so they are key-membership
tests, and that `output['data']` aliases the dict mutated by the replication
step. -/
def content_security_policy (reqs : Reqs)
    (expectation : String := "csp-implemented-with-no-unsafe") : CspVerdict :=
  let output : CspVerdict := ⟨none, expectation, false, none⟩
  let response := reqs.responses.auto
  let output :=
    match headersGet response.headers "Content-Security-Policy" with
    | none => { output with result := some "csp-not-implemented" }
    | some h =>
      match cspParse h with
      | .error _ => { output with result := some "csp-header-invalid" }
      | .ok csp0 =>
        let csp := cspReplicate csp0
        let result :=
          if cspValHasMember inlineTok ((dictGet csp "script-src").getD (.str "")) then
            "csp-implemented-with-unsafe-inline"
          else if ¬ cspValTruthy ((dictGet csp "default-src").getD (.str "")) ∧
              ¬ cspValTruthy ((dictGet csp "script-src").getD (.str "")) then
            "csp-implemented-with-unsafe-inline"
          else if (pyUrlparse response.url).scheme = "https" ∧ dictHasKey csp "http:" then
            "csp-implemented-with-insecure-scheme"
          else if dictHasKey csp evalTok then
            "csp-implemented-with-unsafe-eval"
          else if cspValHasMember inlineTok ((dictGet csp "style-src").getD (.str "")) then
            "csp-implemented-with-unsafe-inline-in-style-src-only"
          else
            "csp-implemented-with-no-unsafe"
        let dataV := if (cspReprDict csp).length < 32768 then csp else []
        { output with data := some dataV, result := some result }
  if output.result = some expectation then { output with pass := true } else output

/-- Verdict record returned by `strict_transport_security`. The `maxAge`
field embeds the `output['max-age']` entry. -/
structure HstsVerdict where
  data : Option String
  expectation : String
  includeSubDomains : Option Bool
  maxAge : Option Int
  pass : Bool
  preload : Option Bool
  preloaded : Bool
  result : Option String
deriving DecidableEq

/-- Python value stored under one key of the HSTS output dict. -/
inductive HVal where
  | vNone
  | vBool (b : Bool)
  | vInt (n : Int)
  | vStr (s : String)
deriving DecidableEq

/-- Python falsiness of such a value. -/
def hvalFalsy : HVal → Bool
  | .vNone => true
  | .vBool b => ¬ b
  | .vInt n => n = 0
  | .vStr s => s = ""

/-- Subscript access `output[k]` on the HSTS output dict: the eight keys the
code initializes, and `none` (a `KeyError`) for any other key — in particular
for the misspelled `'includeubdomains'` on line 252. -/
def hstsDictGet (o : HstsVerdict) : String → Option HVal
  | "data" => some (match o.data with | some s => .vStr s | none => .vNone)
  | "expectation" => some (.vStr o.expectation)
  | "includeSubDomains" => some (match o.includeSubDomains with | some b => .vBool b | none => .vNone)
  | "max-age" => some (match o.maxAge with | some n => .vInt n | none => .vNone)
  | "pass" => some (.vBool o.pass)
  | "preload" => some (match o.preload with | some b => .vBool b | none => .vNone)
  | "preloaded" => some (.vBool o.preloaded)
  | "result" => some (match o.result with | some s => .vStr s | none => .vNone)
  | _ => none

/-- One iteration of the token loop (lines 235-241). `int(...)` on a
non-integer raises, handing the partially updated output to the handler. -/
def stsTokenStep (o : HstsVerdict) (p : String) : Except HstsVerdict HstsVerdict :=
  if "max-age=".toList.isPrefixOf p.toList then
    match pyInt (String.mk (p.toList.drop 8)) with
    | some n => .ok { o with maxAge := some n }
    | none => .error o
  else if p = "includesubdomains" then .ok { o with includeSubDomains := some true }
  else if p = "preload" then .ok { o with preload := some true }
  else .ok o

/-- Token loop of lines 235-241. -/
def stsLoop : HstsVerdict → List String → Except HstsVerdict HstsVerdict
  | o, [] => .ok o
  | o, p :: ps =>
    match stsTokenStep o p with
    | .ok o2 => stsLoop o2 ps
    | .error o2 => .error o2

/-- Lines 243-249: `if output['max-age']:` (zero and `None` are falsy), then
the six-month boundary check against `SIX_MONTHS = 15552000`. -/
def stsMaxAgeResult (o : HstsVerdict) : HstsVerdict :=
  match o.maxAge with
  | some n =>
    if n = 0 then { o with result := some "hsts-header-invalid" }
    else if n < 15552000 then { o with result := some "hsts-implemented-max-age-less-than-six-months" }
    else { o with result := some "hsts-implemented-max-age-at-least-six-months" }
  | none => { o with result := some "hsts-header-invalid" }

/-- Body of the `try` block, lines 233-255. Line 252 subscripts
`output['includeubdomains']` — a key that does not exist — so after the
max-age result has been computed the block always raises `KeyError`, and the
lines defaulting `includeSubDomains` and `preload` to `False` never complete.
-/
def stsTry (o : HstsVerdict) (sts : List String) : Except HstsVerdict HstsVerdict :=
  match stsLoop o sts with
  | .error o2 => .error o2
  | .ok o2 =>
    let o3 := stsMaxAgeResult o2
    match hstsDictGet o3 "includeubdomains" with
    | none => .error o3
    | some v =>
      let o4 := if hvalFalsy v then { o3 with includeSubDomains := some false } else o3
      match hstsDictGet o4 "preload" with
      | none => .error o4
      | some w => .ok (if hvalFalsy w then { o4 with preload := some false } else o4)

/-- HSTS analyzer, lines 193-272 of the source. -/
def strict_transport_security (reqs : Reqs)
    (expectation : String := "hsts-implemented-max-age-at-least-six-months") : HstsVerdict :=
  let output : HstsVerdict :=
    { data := none, expectation := expectation, includeSubDomains := none, maxAge := none,
      pass := false, preload := none, preloaded := false, result := some "hsts-not-implemented" }
  let output :=
    match reqs.responses.https with
    | none => { output with result := some "hsts-not-implemented-no-https" }
    | some response =>
      match headersGet response.headers "Strict-Transport-Security" with
      | none => output
      | some hv =>
        let output := { output with data := some (pySlice 1024 hv) }
        let sts := (pySplitChar ';' (pySlice 1024 hv)).map (fun i => pyStrip (pyLower i))
        match stsTry output sts with
        | .ok o => o
        | .error o => { o with result := some "hsts-header-invalid" }
  let output :=
    match reqs.responses.https with
    | none => output
    | some response =>
      if reqs.isHstsPreloaded (pyUrlparse response.url).netloc
      then { output with result := some "hsts-preloaded", preloaded := true }
      else output
  if resultIn output.result
      ["hsts-implemented-max-age-at-least-six-months", "hsts-preloaded", expectation]
  then { output with pass := true } else output

/-- Severity order of lines 117-121, best first. -/
def goodness : List String :=
  ["cookies-without-secure-flag-but-protected-by-hsts",
   "cookies-without-secure-flag",
   "cookies-session-without-secure-flag-but-protected-by-hsts",
   "cookies-session-without-secure-flag",
   "cookies-session-without-httponly-flag"]

/-- Modelled from the spec: the Ranking Utility `only_if_worse` of
`httpobs.scanner.analyzer.utils` (not part of the analyzed source). Per §2
and §4.2 of the spec it merges a new outcome into the accumulator only if the
new outcome is strictly worse in the fixed order; an empty accumulator takes
the new outcome, and ties keep the existing value. -/
def only_if_worse (new : String) (old : Option String) (order : List String) : Option String :=
  match old with
  | none => some new
  | some o => if order.indexOf new > order.indexOf o then some new else some o

/-- Attribute dict stored in the jar for one cookie (line 142): the values of
`getattr(cookie, i, None)` for the seven listed attribute names. -/
structure JarEntry where
  domain : String
  expires : Option Int
  httponly : Option Bool
  maxAge : Option Int
  path : String
  port : Option String
  secure : Bool
deriving DecidableEq

/-- Jar entry of a cookie. -/
def jarEntryOf (c : Cookie) : JarEntry :=
  ⟨c.domain, c.expires, c.httponly, c.maxAge, c.path, c.port, c.secure⟩

/-- Python `str` of an optional integer attribute. -/
def pyReprOptInt : Option Int → String
  | none => "None"
  | some n => toString n

/-- Python `str` of an optional boolean attribute. -/
def pyReprOptBool : Option Bool → String
  | none => "None"
  | some true => "True"
  | some false => "False"

/-- Python `str` of an optional string attribute. -/
def pyReprOptStr : Option String → String
  | none => "None"
  | some s => pyReprStr s

/-- Python `str` of one jar entry, keys in the order of line 142. -/
def jarEntryRepr (j : JarEntry) : String :=
  "\x7b" ++ pyReprStr "domain" ++ ": " ++ pyReprStr j.domain ++ ", "
    ++ pyReprStr "expires" ++ ": " ++ pyReprOptInt j.expires ++ ", "
    ++ pyReprStr "httponly" ++ ": " ++ pyReprOptBool j.httponly ++ ", "
    ++ pyReprStr "max-age" ++ ": " ++ pyReprOptInt j.maxAge ++ ", "
    ++ pyReprStr "path" ++ ": " ++ pyReprStr j.path ++ ", "
    ++ pyReprStr "port" ++ ": " ++ pyReprOptStr j.port ++ ", "
    ++ pyReprStr "secure" ++ ": " ++ pyReprOptBool (some j.secure) ++ "\x7d"

/-- Python `str` of the whole jar dict. -/
def jarRepr (jar : List (String × JarEntry)) : String :=
  "\x7b" ++ String.intercalate ", " (jar.map (fun p => pyReprStr p.1 ++ ": " ++ jarEntryRepr p.2)) ++ "\x7d"

/-- Lines 135-139: when the cookie object has no `httponly` attribute, set it
from a case-insensitive match on the raw attribute keys in `cookie._rest`. -/
def deriveHttponly (c : Cookie) : Cookie :=
  match c.httponly with
  | some _ => c
  | none => { c with httponly := some ((c.rest.map pyLower).contains "httponly") }

/-- Line 146: a session identifier is a cookie whose lower-cased name
contains `login` or `sess`. -/
def sessionName (name : String) : Bool :=
  pyInStr "login" (pyLower name) ∨ pyInStr "sess" (pyLower name)

/-- Lines 150-174: the three independent merge blocks applied to one (already
patched) cookie. -/
def cookieMerge (hsts : Bool) (c : Cookie) (res : Option String) : Option String :=
  let sessionid := sessionName c.name
  let res :=
    if ¬ c.secure ∧ hsts then
      only_if_worse "cookies-without-secure-flag-but-protected-by-hsts" res goodness
    else if ¬ c.secure then only_if_worse "cookies-without-secure-flag" res goodness
    else res
  let res :=
    if sessionid ∧ ¬ c.secure ∧ hsts then
      only_if_worse "cookies-session-without-secure-flag-but-protected-by-hsts" res goodness
    else if sessionid ∧ ¬ c.secure then
      only_if_worse "cookies-session-without-secure-flag" res goodness
    else res
  if sessionid ∧ pyNotOpt c.httponly then
    only_if_worse "cookies-session-without-httponly-flag" res goodness
  else res

/-- Loop of lines 133-174, threading the jar dict, the merged result and the
in-place patched cookie objects. -/
def processCookies (hsts : Bool) :
    List Cookie → List (String × JarEntry) → Option String →
    List (String × JarEntry) × Option String × List Cookie
  | [], jar, res => (jar, res, [])
  | c0 :: cs, jar, res =>
    let c := deriveHttponly c0
    let out := processCookies hsts cs (dictSet jar c.name (jarEntryOf c)) (cookieMerge hsts c res)
    (out.1, out.2.1, c :: out.2.2)

/-- Verdict record returned by `cookies`. -/
structure CookiesVerdict where
  data : Option (List (String × JarEntry))
  expectation : String
  pass : Bool
  result : Option String
deriving DecidableEq

/-- Cookie analyzer, lines 89-187. Because the loop patches an `httponly`
attribute onto the cookie objects themselves, the analyzer returns the bundle
as left behind by the run alongside the verdict. -/
def cookies (reqs : Reqs)
    (expectation : String := "cookies-secure-with-httponly-sessions") : CookiesVerdict × Reqs :=
  let output : CookiesVerdict := ⟨none, expectation, false, none⟩
  let hsts := (strict_transport_security reqs).pass
  let step : CookiesVerdict × Reqs :=
    match reqs.session.cookies with
    | [] => ({ output with result := some "cookies-not-found" }, reqs)
    | c :: cs =>
      let out := processCookies hsts (c :: cs) [] none
      let output := { output with data := some (if (jarRepr out.1).length < 32768 then out.1 else []) }
      let output :=
        if ¬ optStrTruthy out.2.1 then { output with result := some "cookies-secure-with-httponly-sessions" }
        else { output with result := out.2.1 }
      (output, { reqs with session := ⟨out.2.2⟩ })
  (if resultIn step.1.result ["cookies-not-found", expectation]
   then { step.1 with pass := true } else step.1, step.2)

/-- Verdict record returned by the three simple header analyzers. -/
structure HeaderVerdict where
  data : Option String
  expectation : String
  pass : Bool
  result : Option String
deriving DecidableEq

/-- X-Content-Type-Options analyzer, lines 275-312. -/
def x_content_type_options (reqs : Reqs)
    (expectation : String := "x-content-type-options-nosniff") : HeaderVerdict :=
  let output : HeaderVerdict := ⟨none, expectation, false, none⟩
  let response := reqs.responses.auto
  let output :=
    match headersGet response.headers "X-Content-Type-Options" with
    | some hv =>
      let output := { output with data := some (pySlice 256 hv) }
      if pyLower (pySlice 256 hv) = "nosniff"
      then { output with result := some "x-content-type-options-nosniff" }
      else { output with result := some "x-content-type-options-header-invalid" }
    | none => { output with result := some "x-content-type-options-not-implemented" }
  if output.result = some expectation then { output with pass := true } else output

/-- X-Frame-Options analyzer, lines 315-364, including the `frame-ancestors`
override that consults the CSP analyzer. -/
def x_frame_options (reqs : Reqs)
    (expectation : String := "x-frame-options-sameorigin-or-deny") : HeaderVerdict :=
  let output : HeaderVerdict := ⟨none, expectation, false, none⟩
  let response := reqs.responses.auto
  let output :=
    match headersGet response.headers "X-Frame-Options" with
    | some hv =>
      let output := { output with data := some (pySlice 1024 hv) }
      if pyLower (pySlice 1024 hv) = "deny" ∨ pyLower (pySlice 1024 hv) = "sameorigin"
      then { output with result := some "x-frame-options-sameorigin-or-deny" }
      else if pyInStr "allow-from " (pyLower (pySlice 1024 hv))
      then { output with result := some "x-frame-options-allow-from-origin" }
      else { output with result := some "x-frame-options-header-invalid" }
    | none => { output with result := some "x-frame-options-not-implemented" }
  let csp := content_security_policy reqs
  let output :=
    match csp.data with
    | some d =>
      if d ≠ [] then
        if dictHasKey d "frame-ancestors"
        then { output with result := some "x-frame-options-implemented-via-csp" }
        else output
      else output
    | none => output
  if resultIn output.result
      ["x-frame-options-sameorigin-or-deny", "x-frame-options-implemented-via-csp", expectation]
  then { output with pass := true } else output

/-- Dict comprehension of line 406: the `;`-separated attributes of the raw
header, keys stripped, values stripped when an `=` is present. -/
def xxsspAttrs (x : String) : List (String × Option String) :=
  (pySplitChar ';' x).foldl
    (fun acc d =>
      let parts := pySplitChar '=' d
      dictSet acc (pyStrip (parts.headD ""))
        (if d.toList.contains '=' then some (pyStrip ((parts.drop 1).headD "")) else none))
    []

/-- Lines 385-423 of `x_xss_protection`: everything before the CSP fallback.
The `.error` constructor is the early `return` of line 409, which skips both
the pass check of lines 421-423 and the fallback of lines 426-429. -/
def xxsspEval (reqs : Reqs) (expectation : String) : Except HeaderVerdict HeaderVerdict :=
  let output : HeaderVerdict := ⟨none, expectation, false, none⟩
  match headersGet reqs.responses.auto.headers "X-XSS-Protection" with
  | some x =>
    match x.toList with
    | c :: _ =>
      let output := { output with data := some (pySlice 256 x) }
      if c ≠ '0' ∧ c ≠ '1' then
        .error { output with result := some "x-xss-protection-header-invalid" }
      else
        let enabled := c = '1'
        let attrs := xxsspAttrs x
        if enabled ∧ (dictGet attrs "mode").getD none = some "block" then
          .ok { output with result := some "x-xss-protection-enabled-mode-block" }
        else if enabled then .ok { output with result := some "x-xss-protection-enabled" }
        else .ok { output with result := some "x-xss-protection-disabled" }
    | [] => .ok { output with result := some "x-xss-protection-not-implemented" }
  | none => .ok { output with result := some "x-xss-protection-not-implemented" }

/-- X-XSS-Protection analyzer, lines 367-431: the pass check of line 422
(`'enabled' in output['result']`, a substring test) and the CSP fallback of
lines 426-429 apply only when line 409 did not return early. -/
def x_xss_protection (reqs : Reqs)
    (expectation : String := "x-xss-protection-1-mode-block") : HeaderVerdict :=
  match xxsspEval reqs expectation with
  | .error output => output
  | .ok output =>
    let output :=
      if pyInStr "enabled" (output.result.getD "") then { output with pass := true } else output
    if output.pass = false ∧ (content_security_policy reqs).pass then
      { output with pass := true, result := some "x-xss-protection-not-needed-due-to-csp" }
    else output

/-! Concrete bundles used to evaluate the analyzers at specific inputs. -/

/-- Bundle whose https response carries the given Strict-Transport-Security
header, with a host that is not preloaded. -/
def hstsBundle (hv : String) : Reqs :=
  ⟨⟨⟨"https://example.com/", []⟩,
    some ⟨"https://example.com/", [("Strict-Transport-Security", hv)]⟩⟩,
   ⟨[]⟩, fun _ => false⟩

/-- Bundle with only an auto response carrying the given headers. -/
def autoBundle (url : String) (hs : List (String × String)) : Reqs :=
  ⟨⟨⟨url, hs⟩, none⟩, ⟨[]⟩, fun _ => false⟩

/-- Bundle for the C3 evaluation: https final URL, a CSP whose `script-src`
value contains the substring `http:`, no `unsafe-inline`, and a non-empty
`default-src`. -/
def c3Reqs : Reqs :=
  autoBundle "https://example.com/"
    [("Content-Security-Policy", "default-src https://mozilla.org; script-src http://insecure.example")]

/-- Bundle for the C4 evaluation: a CSP whose `default-src` token list
contains `'unsafe-eval'`, over a plain-http final URL so that the
insecure-scheme rule is out of the picture. -/
def c4Reqs : Reqs :=
  autoBundle "http://example.com/" [("Content-Security-Policy", "default-src " ++ evalTok)]

/-- Bundle for the C5 counterexample: a parsable CSP header that mentions
neither `script-src` nor `style-src` nor `default-src`. -/
def c5Reqs : Reqs :=
  autoBundle "https://example.com/" [("Content-Security-Policy", "img-src https://example.com")]

/-- Bundle for the C7 counterexample: an unparsable X-XSS-Protection header
(first character neither `0` nor `1`) next to a CSP that passes its default
expectation. -/
def c7Reqs : Reqs :=
  autoBundle "https://example.com/"
    [("X-XSS-Protection", "2; mode=block"),
     ("Content-Security-Policy", "default-src https://mozilla.org")]

set_option maxRecDepth 100000

/-- C1: the claim says an HSTS header `max-age=15552000` yields
`hsts-implemented-max-age-at-least-six-months` and `max-age=15551999` yields
`hsts-implemented-max-age-less-than-six-months`. The code parses the max-age
(witnessed by the `maxAge` field) but then line 252 subscripts the misspelled
key `'includeubdomains'`, so the `try` block always ends in a `KeyError` and
the bare `except:` overwrites the result with `hsts-header-invalid` for both
boundary values. -/
theorem c1_hsts_boundary_eval :
    (strict_transport_security (hstsBundle "max-age=15552000")).result = some "hsts-header-invalid"
    ∧ (strict_transport_security (hstsBundle "max-age=15552000")).maxAge = some 15552000
    ∧ (strict_transport_security (hstsBundle "max-age=15551999")).result = some "hsts-header-invalid"
    ∧ (strict_transport_security (hstsBundle "max-age=15551999")).maxAge = some 15551999 := by
  decide

/-- C2: the claim says `includeSubDomains` and `preload` are exactly `false`
when their token is absent from a present, parsable header. Because the
`KeyError` of line 252 aborts the `try` block before the defaulting lines
run, both fields remain `None` when the tokens are absent; a present token
does yield `true` (set before the failing line). -/
theorem c2_hsts_defaults_eval :
    (strict_transport_security (hstsBundle "max-age=31536000")).includeSubDomains = none
    ∧ (strict_transport_security (hstsBundle "max-age=31536000")).preload = none
    ∧ (strict_transport_security (hstsBundle "max-age=31536000; includeSubDomains; preload")).includeSubDomains
        = some true
    ∧ (strict_transport_security (hstsBundle "max-age=31536000; includeSubDomains; preload")).preload
        = some true := by
  decide

/-- C3: the claim says that with an https final URL, the substring `http:`
anywhere among the parsed directive values forces
`csp-implemented-with-insecure-scheme`. Line 65 instead tests `'http:' in
output['data']`, a key-membership test on the policy dict, so a bundle whose
directive values do contain `http:` falls through to
`csp-implemented-with-no-unsafe`. -/
theorem c3_insecure_scheme_eval :
    (pyUrlparse c3Reqs.responses.auto.url).scheme = "https"
    ∧ ((content_security_policy c3Reqs).data.getD []).any
        (fun p => match p.2 with
          | .list xs => xs.any (fun t => pyInStr "http:" t)
          | .str s => pyInStr "http:" s) = true
    ∧ (content_security_policy c3Reqs).result = some "csp-implemented-with-no-unsafe" := by
  decide

/-- C4: the claim says `'unsafe-eval'` anywhere among the parsed directive
values forces `csp-implemented-with-unsafe-eval` once the earlier rules do
not match. Line 67 instead tests `'\x27unsafe-eval\x27' in output['data']`, a
key-membership test on the policy dict, so a policy carrying the keyword in
its `default-src` token list falls through to
`csp-implemented-with-no-unsafe`. -/
theorem c4_unsafe_eval_eval :
    ((content_security_policy c4Reqs).data.getD []).any
        (fun p => match p.2 with
          | .list xs => xs.contains evalTok
          | .str s => pyInStr evalTok s) = true
    ∧ (content_security_policy c4Reqs).result = some "csp-implemented-with-no-unsafe" := by
  decide

/-- C5 counterexample: the claim says `script-src`/`style-src` appear as keys
of the returned `data` mapping only if they appeared in the header. For the
header `img-src https://example.com`, which mentions neither, the returned
mapping nevertheless has both keys (and `default-src`), because
`output['data']` aliases the dict mutated by the replication step of lines
56-58. -/
theorem c5_counterexample :
    dictHasKey ((content_security_policy c5Reqs).data.getD []) "script-src" = true
    ∧ dictHasKey ((content_security_policy c5Reqs).data.getD []) "style-src" = true
    ∧ dictHasKey ((content_security_policy c5Reqs).data.getD []) "default-src" = true
    ∧ pyInStr "script-src" "img-src https://example.com" = false := by
  decide

/-- C7 counterexample: the claim says every non-passing X-XSS-Protection
verdict — including unparsable headers — is overridden when the CSP verdict
passes. For an unparsable header (`2; mode=block`) line 409 returns early,
skipping the fallback of lines 426-429, so the verdict stays
`x-xss-protection-header-invalid` with `pass=false` even though the CSP
analyzer passes. -/
theorem c7_counterexample :
    (content_security_policy c7Reqs).pass = true
    ∧ (x_xss_protection c7Reqs).pass = false
    ∧ (x_xss_protection c7Reqs).result = some "x-xss-protection-header-invalid" := by
  decide

/-- Lookup after assignment at the same key. -/
theorem dictGet_set_self {α : Type} (d : List (String × α)) (k : String) (v : α) :
    dictGet (dictSet d k v) k = some v := by
  induction d with
  | nil => simp [dictSet, dictGet]
  | cons p ps ih =>
    by_cases h : p.1 = k
    · simp [dictSet, dictGet, h]
    · simp [dictSet, dictGet, h, ih]

/-- Lookup after assignment at a different key. -/
theorem dictGet_set_other {α : Type} (d : List (String × α)) (k k' : String) (v : α)
    (h : k' ≠ k) : dictGet (dictSet d k v) k' = dictGet d k' := by
  induction d with
  | nil => simp [dictSet, dictGet, Ne.symm h]
  | cons p ps ih =>
    by_cases hp : p.1 = k
    · simp [dictSet, dictGet, hp, Ne.symm h]
    · simp [dictSet, dictGet, hp, ih]

/-- C5 amended: for every parsable Content-Security-Policy header whose
serialized policy stays under the 32768-character cap, the returned `data`
mapping is the header's directive mapping with the replication of lines 56-58
applied — so it always carries the keys `default-src`, `script-src` and
`style-src`; `script-src`/`style-src` hold their own value when the header
defined them and the `default-src` value otherwise, `default-src` defaults to
the empty string, and every other key is exactly as parsed from the header.
The fallback is therefore computed once and stored into the returned mapping,
not kept out of it as the claim states. -/
theorem c5_data_replication (reqs : Reqs) (e h : String) (pol : List (String × CspVal))
    (hh : headersGet reqs.responses.auto.headers "Content-Security-Policy" = some h)
    (hp : cspParse h = .ok pol)
    (hcap : (cspReprDict (cspReplicate pol)).length < 32768) :
    (content_security_policy reqs e).data = some (cspReplicate pol)
    ∧ dictHasKey (cspReplicate pol) "default-src" = true
    ∧ dictHasKey (cspReplicate pol) "script-src" = true
    ∧ dictHasKey (cspReplicate pol) "style-src" = true
    ∧ dictGet (cspReplicate pol) "script-src" =
        (if dictHasKey pol "script-src" then dictGet pol "script-src"
         else some ((dictGet pol "default-src").getD (.str "")))
    ∧ dictGet (cspReplicate pol) "style-src" =
        (if dictHasKey pol "style-src" then dictGet pol "style-src"
         else some ((dictGet pol "default-src").getD (.str "")))
    ∧ ∀ k : String, k ≠ "default-src" → k ≠ "script-src" → k ≠ "style-src" →
        dictGet (cspReplicate pol) k = dictGet pol k := by
  have hdata : (content_security_policy reqs e).data = some (cspReplicate pol) := by
    unfold content_security_policy
    simp only [hh, hp, hcap, if_pos]
    repeat' split
    all_goals rfl
  refine ⟨hdata, ?_, ?_, ?_, ?_, ?_, ?_⟩
  · unfold cspReplicate dictHasKey
    rw [dictGet_set_other _ _ _ _ (by decide), dictGet_set_other _ _ _ _ (by decide),
      dictGet_set_self]
    rfl
  · unfold cspReplicate dictHasKey
    rw [dictGet_set_other _ _ _ _ (by decide), dictGet_set_self]
    rfl
  · unfold cspReplicate dictHasKey
    rw [dictGet_set_self]
    rfl
  · unfold cspReplicate
    rw [dictGet_set_other _ _ _ _ (by decide), dictGet_set_self]
    unfold dictHasKey
    rw [dictGet_set_other _ _ _ _ (by decide)]
    rcases hs : dictGet pol "script-src" with _ | v
    · simp [hs, dictGet_set_self, dictGet_set_other]
    · simp [hs, dictGet_set_other _ _ _ _ (by decide : ("script-src" : String) ≠ "default-src"), hs]
  · unfold cspReplicate
    rw [dictGet_set_self]
    unfold dictHasKey
    rw [dictGet_set_other _ _ _ _ (by decide), dictGet_set_other _ _ _ _ (by decide)]
    rcases hs : dictGet pol "style-src" with _ | v
    · simp [hs, dictGet_set_self, dictGet_set_other]
    · simp [hs, dictGet_set_other _ _ _ _ (by decide : ("style-src" : String) ≠ "script-src"),
        dictGet_set_other _ _ _ _ (by decide : ("style-src" : String) ≠ "default-src")]
  · intro k h1 h2 h3
    unfold cspReplicate
    rw [dictGet_set_other _ _ _ _ h3, dictGet_set_other _ _ _ _ h2, dictGet_set_other _ _ _ _ h1]

/-- C5 amended, witnessed at the `img-src` bundle: the returned mapping has a
`script-src` key even though the header did not mention one. -/
theorem c5_data_replication_witness :
    (content_security_policy c5Reqs "csp-implemented-with-no-unsafe").data
      = some (cspReplicate [("img-src", CspVal.list ["https://example.com"])])
    ∧ dictHasKey (cspReplicate [("img-src", CspVal.list ["https://example.com"])]) "script-src" = true :=
  ⟨(c5_data_replication c5Reqs "csp-implemented-with-no-unsafe"
      "img-src https://example.com" [("img-src", CspVal.list ["https://example.com"])]
      (by decide) (by rfl) (by decide)).1,
   (c5_data_replication c5Reqs "csp-implemented-with-no-unsafe"
      "img-src https://example.com" [("img-src", CspVal.list ["https://example.com"])]
      (by decide) (by rfl) (by decide)).2.2.1⟩

/-- Bundle used to witness the CSP fallback of `x_xss_protection`: no
X-XSS-Protection header at all, next to a CSP that passes its default
expectation. -/
def c7wReqs : Reqs :=
  autoBundle "https://example.com/" [("Content-Security-Policy", "default-src https://mozilla.org")]

/-- C7 amended: for every bundle on which the X-XSS-Protection analyzer does
not take the early unparsable-header return of line 409 (absent, disabled or
enabled headers), if the header-derived verdict is not passing and the CSP
analyzer passes, the verdict is overridden to `pass=true` with result
`x-xss-protection-not-needed-due-to-csp`. The unparsable-header path is
excluded because its early return skips the fallback, as the counterexample
shows. -/
theorem c7_csp_fallback (reqs : Reqs) (e : String) (out : HeaderVerdict)
    (hok : xxsspEval reqs e = .ok out)
    (hpass : out.pass = false)
    (hfail : pyInStr "enabled" (out.result.getD "") = false)
    (hcsp : (content_security_policy reqs).pass = true) :
    x_xss_protection reqs e =
      { out with pass := true, result := some "x-xss-protection-not-needed-due-to-csp" } := by
  unfold x_xss_protection
  rw [hok]
  simp [hfail, hpass, hcsp]

/-- C7 amended, witnessed on a bundle with no X-XSS-Protection header and a
passing CSP. -/
theorem c7_csp_fallback_witness :
    x_xss_protection c7wReqs =
      { data := none, expectation := "x-xss-protection-1-mode-block", pass := true,
        result := some "x-xss-protection-not-needed-due-to-csp" } :=
  c7_csp_fallback c7wReqs "x-xss-protection-1-mode-block"
    ⟨none, "x-xss-protection-1-mode-block", false, some "x-xss-protection-not-implemented"⟩
    (by rfl) (by rfl) (by decide) (by decide)

/-- C8: for every bundle whose session cookie jar is empty and every
expectation string, the cookies analyzer reports `cookies-not-found` and
passes, because line 184 accepts `cookies-not-found` unconditionally. -/
theorem c8_empty_jar_passes (reqs : Reqs) (e : String)
    (h : reqs.session.cookies = []) :
    (cookies reqs e).1.result = some "cookies-not-found"
    ∧ (cookies reqs e).1.pass = true := by
  unfold cookies
  rw [h]
  simp [resultIn]

/-- C8, witnessed on a concrete cookieless bundle with an expectation that is
not `cookies-not-found`. -/
theorem c8_empty_jar_passes_witness :
    (cookies (autoBundle "http://example.com/" []) "cookies-secure-with-httponly-sessions").1.result
      = some "cookies-not-found"
    ∧ (cookies (autoBundle "http://example.com/" []) "cookies-secure-with-httponly-sessions").1.pass
      = true :=
  c8_empty_jar_passes (autoBundle "http://example.com/" [])
    "cookies-secure-with-httponly-sessions" (by rfl)

/-- Left fold of the severity merge over a sequence of outcome codes,
starting from the empty accumulator, exactly as the cookie loop applies
`only_if_worse` to `output['result']`. -/
def foldWorse (l : List String) : Option String :=
  l.foldl (fun acc x => only_if_worse x acc goodness) none

/-- Characterization of the merge fold from a non-empty accumulator: it
returns an element of the inputs seen so far whose position in the severity
order dominates all of them. -/
theorem foldWorse_go (l : List String) : ∀ a : String,
    ∃ w, List.foldl (fun acc x => only_if_worse x acc goodness) (some a) l = some w
      ∧ w ∈ a :: l ∧ ∀ x ∈ a :: l, goodness.indexOf x ≤ goodness.indexOf w := by
  induction l with
  | nil =>
    intro a
    exact ⟨a, rfl, by simp, by simp⟩
  | cons b t ih =>
    intro a
    rw [List.foldl_cons]
    by_cases hba : goodness.indexOf b > goodness.indexOf a
    · obtain ⟨w, hw, hwmem, hbound⟩ := ih b
      refine ⟨w, by simpa [only_if_worse, hba] using hw, List.mem_cons_of_mem a hwmem, ?_⟩
      intro x hx
      rcases List.mem_cons.mp hx with rfl | hx'
      · exact le_trans (le_of_lt hba) (hbound b (List.mem_cons_self b t))
      · exact hbound x hx'
    · obtain ⟨w, hw, hwmem, hbound⟩ := ih a
      refine ⟨w, by simpa [only_if_worse, hba] using hw, ?_, ?_⟩
      · rcases List.mem_cons.mp hwmem with rfl | hw'
        · exact List.mem_cons_self w (b :: t)
        · exact List.mem_cons_of_mem _ (List.mem_cons_of_mem _ hw')
      · intro x hx
        rcases List.mem_cons.mp hx with rfl | hx'
        · exact hbound x (List.mem_cons_self x t)
        · rcases List.mem_cons.mp hx' with rfl | hx''
          · exact le_trans (not_lt.mp hba) (hbound a (List.mem_cons_self a t))
          · exact hbound x (List.mem_cons_of_mem _ hx'')

/-- Characterization of the full merge fold on a non-empty sequence. -/
theorem foldWorse_spec (l : List String) (hne : l ≠ []) :
    ∃ w, foldWorse l = some w ∧ w ∈ l
      ∧ ∀ x ∈ l, goodness.indexOf x ≤ goodness.indexOf w := by
  rcases l with _ | ⟨a, t⟩
  · exact absurd rfl hne
  · obtain ⟨w, hw, hwmem, hbound⟩ := foldWorse_go t a
    exact ⟨w, by simpa [foldWorse, only_if_worse] using hw, hwmem, hbound⟩

/-- C9: folding a non-empty sequence of severity codes drawn from the fixed
`goodness` order through `only_if_worse` (empty initial accumulator) yields
the single worst severity of the sequence, the fold result is the same for
every permutation of the sequence, and a tie keeps the existing accumulator
value. -/
theorem c9_only_if_worse_fold (l : List String) (hne : l ≠ [])
    (hmem : ∀ x ∈ l, x ∈ goodness) :
    ∃ w, foldWorse l = some w ∧ w ∈ l
      ∧ (∀ x ∈ l, goodness.indexOf x ≤ goodness.indexOf w)
      ∧ (∀ l2 : List String, l.Perm l2 → foldWorse l2 = foldWorse l)
      ∧ (∀ x y : String, goodness.indexOf x = goodness.indexOf y →
          only_if_worse x (some y) goodness = some y) := by
  obtain ⟨w, hw, hwmem, hbound⟩ := foldWorse_spec l hne
  refine ⟨w, hw, hwmem, hbound, ?_, ?_⟩
  · intro l2 hperm
    have hne2 : l2 ≠ [] := by
      intro h
      subst h
      exact hne hperm.eq_nil
    obtain ⟨w2, hw2, hw2mem, hbound2⟩ := foldWorse_spec l2 hne2
    have hw2l : w2 ∈ l := hperm.mem_iff.mpr hw2mem
    have hwl2 : w ∈ l2 := hperm.mem_iff.mp hwmem
    have heq : goodness.indexOf w2 = goodness.indexOf w :=
      le_antisymm (hbound w2 hw2l) (hbound2 w hwl2)
    rw [hw2, hw, (List.indexOf_inj (hmem w2 hw2l) (hmem w hwmem)).mp heq]
  · intro x y hxy
    simp [only_if_worse, hxy]

/-- C9, witnessed on a concrete repetition-bearing sequence of severities. -/
theorem c9_only_if_worse_fold_witness :
    ∃ w, foldWorse ["cookies-without-secure-flag", "cookies-session-without-httponly-flag",
        "cookies-without-secure-flag"] = some w
      ∧ w ∈ ["cookies-without-secure-flag", "cookies-session-without-httponly-flag",
          "cookies-without-secure-flag"]
      ∧ (∀ x ∈ ["cookies-without-secure-flag", "cookies-session-without-httponly-flag",
          "cookies-without-secure-flag"], goodness.indexOf x ≤ goodness.indexOf w)
      ∧ (∀ l2 : List String,
          List.Perm ["cookies-without-secure-flag", "cookies-session-without-httponly-flag",
            "cookies-without-secure-flag"] l2 →
          foldWorse l2 = foldWorse ["cookies-without-secure-flag",
            "cookies-session-without-httponly-flag", "cookies-without-secure-flag"])
      ∧ (∀ x y : String, goodness.indexOf x = goodness.indexOf y →
          only_if_worse x (some y) goodness = some y) :=
  c9_only_if_worse_fold
    ["cookies-without-secure-flag", "cookies-session-without-httponly-flag",
      "cookies-without-secure-flag"] (by decide) (by decide)

/-- Patching the `httponly` attribute is idempotent. -/
theorem deriveHttponly_idem (c : Cookie) :
    deriveHttponly (deriveHttponly c) = deriveHttponly c := by
  rcases c with ⟨n, d, p, ex, m, po, s, ho, r⟩
  cases ho <;> rfl

/-- The cookie objects left behind by the loop are the patched inputs. -/
theorem processCookies_third (hsts : Bool) (cs : List Cookie)
    (jar : List (String × JarEntry)) (res : Option String) :
    (processCookies hsts cs jar res).2.2 = cs.map deriveHttponly := by
  induction cs generalizing jar res with
  | nil => rfl
  | cons c t ih => simp only [processCookies, List.map_cons, ih]

/-- Running the loop on already-patched cookie objects changes nothing. -/
theorem processCookies_map_derive (hsts : Bool) (cs : List Cookie)
    (jar : List (String × JarEntry)) (res : Option String) :
    processCookies hsts (cs.map deriveHttponly) jar res = processCookies hsts cs jar res := by
  induction cs generalizing jar res with
  | nil => rfl
  | cons c t ih =>
    simp only [List.map_cons, processCookies, deriveHttponly_idem, ih]

/-- The cookies analyzer gives the same answer on a bundle whose cookie
objects have already been patched by a previous run. -/
theorem cookies_map_derive (resp : Responses) (oracle : String → Bool)
    (cs : List Cookie) (ec : String) :
    cookies ⟨resp, ⟨cs.map deriveHttponly⟩, oracle⟩ ec
      = cookies ⟨resp, ⟨cs⟩, oracle⟩ ec := by
  cases cs with
  | nil => rfl
  | cons c t =>
    simp only [cookies, List.map_cons]
    have hsts : strict_transport_security ⟨resp, ⟨deriveHttponly c :: t.map deriveHttponly⟩, oracle⟩
        = strict_transport_security ⟨resp, ⟨c :: t⟩, oracle⟩ := rfl
    rw [hsts, show deriveHttponly c :: t.map deriveHttponly = (c :: t).map deriveHttponly from
      (List.map_cons deriveHttponly c t).symm, processCookies_map_derive]

/-- Second component of a cookies run: the bundle with patched cookies. -/
theorem cookies_snd (resp : Responses) (oracle : String → Bool)
    (cs : List Cookie) (ec : String) :
    (cookies ⟨resp, ⟨cs⟩, oracle⟩ ec).2 = ⟨resp, ⟨cs.map deriveHttponly⟩, oracle⟩ := by
  cases cs with
  | nil => rfl
  | cons c t => simp only [cookies, processCookies_third]

/-- C10: every analyzer yields a bit-identical verdict when re-invoked on the
bundle as the cookies analyzer leaves it behind — the only analyzer that
mutates its input (it patches `httponly` onto cookie objects); re-running
cookies reproduces its own verdict, and the other five analyzers are
unaffected by the patch. -/
theorem c10_idempotent (reqs : Reqs) (ec e : String) :
    (cookies (cookies reqs ec).2 ec).1 = (cookies reqs ec).1
    ∧ content_security_policy (cookies reqs ec).2 e = content_security_policy reqs e
    ∧ strict_transport_security (cookies reqs ec).2 e = strict_transport_security reqs e
    ∧ x_content_type_options (cookies reqs ec).2 e = x_content_type_options reqs e
    ∧ x_frame_options (cookies reqs ec).2 e = x_frame_options reqs e
    ∧ x_xss_protection (cookies reqs ec).2 e = x_xss_protection reqs e := by
  rcases reqs with ⟨resp, ⟨cs⟩, oracle⟩
  rw [cookies_snd]
  exact ⟨congrArg Prod.fst (cookies_map_derive resp oracle cs ec), rfl, rfl, rfl, rfl, rfl⟩

/-- Verdict well-formedness of the CSP analyzer: the result is set on every
path and the expectation is echoed. -/
theorem content_security_policy_wellformed (reqs : Reqs) (e : String) :
    (content_security_policy reqs e).result.isSome = true
    ∧ (content_security_policy reqs e).expectation = e := by
  simp only [content_security_policy]
  repeat' split
  all_goals exact ⟨rfl, rfl⟩

/-- Truthy optional strings hold a value. -/
theorem optStrTruthy_isSome (o : Option String) (h : optStrTruthy o = true) :
    o.isSome = true := by
  cases o with
  | none => exact absurd h (by simp [optStrTruthy])
  | some s => rfl

/-- Verdict well-formedness of the cookies analyzer. -/
theorem cookies_wellformed (reqs : Reqs) (e : String) :
    (cookies reqs e).1.result.isSome = true
    ∧ (cookies reqs e).1.expectation = e := by
  simp only [cookies]
  repeat' split
  all_goals
    first
      | exact ⟨rfl, rfl⟩
      | exact ⟨optStrTruthy_isSome _ (not_not.mp (by assumption)), rfl⟩

/-- Line 252 subscripts a key the output dict never contains. -/
theorem hstsDictGet_misspelled (o : HstsVerdict) :
    hstsDictGet o "includeubdomains" = none := rfl

/-- The `try` block of the HSTS analyzer never completes: once the token loop
and the max-age check are done, the misspelled subscript of line 252 raises.
-/
theorem stsTry_not_ok (o : HstsVerdict) (sts : List String) (r : HstsVerdict) :
    stsTry o sts ≠ .ok r := by
  unfold stsTry
  cases hsl : stsLoop o sts with
  | error o2 => simp
  | ok o2 => simp [hstsDictGet_misspelled]

/-- One token step never touches the expectation field. -/
theorem stsTokenStep_exp (o : HstsVerdict) (p : String) (r : HstsVerdict)
    (h : stsTokenStep o p = .ok r ∨ stsTokenStep o p = .error r) :
    r.expectation = o.expectation := by
  rcases h with h | h <;> (simp only [stsTokenStep] at h; repeat' split at h) <;>
    (cases h <;> rfl)

/-- The token loop never touches the expectation field. -/
theorem stsLoop_exp (sts : List String) : ∀ o r : HstsVerdict,
    (stsLoop o sts = .ok r ∨ stsLoop o sts = .error r) → r.expectation = o.expectation := by
  induction sts with
  | nil =>
    intro o r h
    rcases h with h | h
    · injection h with h2
      subst h2
      rfl
    · cases h
  | cons p ps ih =>
    intro o r h
    simp only [stsLoop] at h
    rcases hstep : stsTokenStep o p with o2 | o2 <;> simp only [hstep] at h
    · have hr : r = o2 := by
        rcases h with h | h
        · cases h
        · injection h with h2
          exact h2.symm
      rw [hr]
      exact stsTokenStep_exp o p o2 (Or.inr hstep)
    · rw [ih o2 r h]
      exact stsTokenStep_exp o p o2 (Or.inl hstep)

/-- The max-age classification never touches the expectation field. -/
theorem stsMaxAgeResult_exp (o : HstsVerdict) :
    (stsMaxAgeResult o).expectation = o.expectation := by
  unfold stsMaxAgeResult
  repeat' split
  all_goals rfl

/-- The payload the `try` block hands to the `except:` handler keeps the
expectation of the output it started from. -/
theorem stsTry_exp (o : HstsVerdict) (sts : List String) (r : HstsVerdict)
    (h : stsTry o sts = .error r) : r.expectation = o.expectation := by
  simp only [stsTry] at h
  rcases hsl : stsLoop o sts with o2 | o2 <;> simp only [hsl] at h
  · injection h with h2
    rw [← h2]
    exact stsLoop_exp sts o o2 (Or.inr hsl)
  · rw [hstsDictGet_misspelled] at h
    injection h with h2
    rw [← h2, stsMaxAgeResult_exp]
    exact stsLoop_exp sts o o2 (Or.inl hsl)

/-- Verdict well-formedness of the HSTS analyzer. -/
theorem strict_transport_security_wellformed (reqs : Reqs) (e : String) :
    (strict_transport_security reqs e).result.isSome = true
    ∧ (strict_transport_security reqs e).expectation = e := by
  simp only [strict_transport_security]
  repeat' split
  all_goals try dsimp only
  all_goals
    first
      | exact ⟨rfl, rfl⟩
      | exact absurd (by assumption) (stsTry_not_ok _ _ _)
      | exact ⟨rfl, (stsTry_exp _ _ _ (by assumption)).trans rfl⟩

/-- Verdict well-formedness of the X-Content-Type-Options analyzer. -/
theorem x_content_type_options_wellformed (reqs : Reqs) (e : String) :
    (x_content_type_options reqs e).result.isSome = true
    ∧ (x_content_type_options reqs e).expectation = e := by
  simp only [x_content_type_options]
  repeat' split
  all_goals exact ⟨rfl, rfl⟩

/-- Verdict well-formedness of the X-Frame-Options analyzer. -/
theorem x_frame_options_wellformed (reqs : Reqs) (e : String) :
    (x_frame_options reqs e).result.isSome = true
    ∧ (x_frame_options reqs e).expectation = e := by
  simp only [x_frame_options]
  repeat' split
  all_goals exact ⟨rfl, rfl⟩

/-- Both outcomes of the pre-fallback phase of the X-XSS-Protection analyzer
carry a set result and the echoed expectation. -/
theorem xxsspEval_wellformed (reqs : Reqs) (e : String) (o : HeaderVerdict)
    (h : xxsspEval reqs e = .error o ∨ xxsspEval reqs e = .ok o) :
    o.result.isSome = true ∧ o.expectation = e := by
  rcases h with h | h <;> (simp only [xxsspEval] at h; repeat' split at h) <;>
    first
      | (cases h <;> exact ⟨rfl, rfl⟩)

/-- Verdict well-formedness of the X-XSS-Protection analyzer. -/
theorem x_xss_protection_wellformed (reqs : Reqs) (e : String) :
    (x_xss_protection reqs e).result.isSome = true
    ∧ (x_xss_protection reqs e).expectation = e := by
  unfold x_xss_protection
  cases hx : xxsspEval reqs e with
  | error o => exact xxsspEval_wellformed reqs e o (Or.inl hx)
  | ok o =>
    have hwf := xxsspEval_wellformed reqs e o (Or.inr hx)
    dsimp only
    repeat' split
    all_goals
      first
        | exact ⟨hwf.1, hwf.2⟩
        | exact ⟨rfl, hwf.2⟩

/-- C6: on every bundle of the input contract and for every expectation key,
each of the six analyzer calls returns a well-formed verdict: a record whose
`result` is set (never `None`) and whose `expectation` echoes the input. The
analyzers are total Lean functions — every Python path that can raise inside
them (`int(...)`, the dict comprehensions, the misspelled subscript of line
252) is absorbed by a `try/except` into an `invalid` result, so no exception
reaches the caller. -/
theorem c6_analyzers_wellformed (reqs : Reqs) (e1 e2 e3 e4 e5 e6 : String) :
    ((content_security_policy reqs e1).result.isSome = true
      ∧ (content_security_policy reqs e1).expectation = e1)
    ∧ ((cookies reqs e2).1.result.isSome = true
      ∧ (cookies reqs e2).1.expectation = e2)
    ∧ ((strict_transport_security reqs e3).result.isSome = true
      ∧ (strict_transport_security reqs e3).expectation = e3)
    ∧ ((x_content_type_options reqs e4).result.isSome = true
      ∧ (x_content_type_options reqs e4).expectation = e4)
    ∧ ((x_frame_options reqs e5).result.isSome = true
      ∧ (x_frame_options reqs e5).expectation = e5)
    ∧ ((x_xss_protection reqs e6).result.isSome = true
      ∧ (x_xss_protection reqs e6).expectation = e6) :=
  ⟨content_security_policy_wellformed reqs e1,
   cookies_wellformed reqs e2,
   strict_transport_security_wellformed reqs e3,
   x_content_type_options_wellformed reqs e4,
   x_frame_options_wellformed reqs e5,
   x_xss_protection_wellformed reqs e6⟩

end HttpObs
